import Mathlib

/-!
# Verification of the imgst directory-walk and task-dispatch engine

Shallow embedding of `src/main.rs` of the `imgst` repository.

Paths are modelled as lists of components (`List String`), matching the
component-wise semantics of Rust's `Path` operations used by the program
(`strip_prefix`, `join`, `file_name`, `extension`).  The parallel walk is
modelled as a fold over the list of walk results: the program's three
counters are only incremented, increments commute, and the counters are
read only after the walk completes, so the aggregate tally of any
interleaving equals the tally of the sequential fold.
-/

namespace Imgst

/-- Rust `char::to_ascii_lowercase`: maps `A`..`Z` to `a`..`z`, leaves
every other character unchanged. -/
def asciiLowerChar (c : Char) : Char :=
  if 'A' ≤ c ∧ c ≤ 'Z' then Char.ofNat (c.toNat + 32) else c

/-- Rust `str::to_ascii_lowercase` on a whole string. -/
def asciiLower (s : String) : String :=
  String.mk (s.data.map asciiLowerChar)

/-- Rust `Path::extension` restricted to a file name (the path's last
component), mirroring `rsplit_file_at_dot` of the Rust standard library:
`None` when the name is `".."`, contains no dot, or starts with its only
dot (`".jpg"` has no extension); otherwise the portion after the last
dot. -/
def rustExtension (f : String) : Option String :=
  if f = ".." then none
  else
    let rev := f.data.reverse
    let after := rev.takeWhile (fun c => c != '.')
    let rest := rev.dropWhile (fun c => c != '.')
    match rest with
    | [] => none
    | _ :: before =>
      if before = [] then none else some (String.mk after.reverse)

/-- Rust `Path::file_name` on a component-list path (components are as
produced by Rust's `Path::components`, which drops `"."`): the last
component, except that a trailing parent-directory component `".."` yields
`None`, as does the empty path (e.g. the filesystem root). -/
def pathFileName (p : List String) : Option String :=
  match p.getLast? with
  | some name => if name = ".." then none else some name
  | none => none

/-- File-type tag of a directory entry (`ignore::DirEntry::file_type`). -/
inductive FileType
  | regular
  | directory
  | symlink
  | other
deriving Repr, DecidableEq

/-- A discovered filesystem node: absolute path (as components) and
file-type tag. -/
structure Entry where
  path : List String
  ftype : FileType
deriving Repr, DecidableEq

/-- One result yielded by the parallel walker to the per-entry closure:
either an entry or a traversal error (`ignore::Error`). -/
inductive WalkItem
  | ok (e : Entry)
  | err (msg : String)
deriving Repr, DecidableEq

/-- `entry.file_type().map(|ft| ft.is_file()).unwrap_or(false)` from the
walker closure (main.rs lines 133-139). -/
def isFile (e : Entry) : Bool :=
  match e.ftype with
  | .regular => true
  | _ => false

/-- `path.extension()` on a component-list path: the extension of the
file name, none when there is no file name (main.rs lines 141-144 before
the lowercasing step). -/
def pathExtension (p : List String) : Option String :=
  (pathFileName p).bind rustExtension

/-- The lowercased extension computed at main.rs lines 141-144:
`path.extension().and_then(|s| s.to_str()).map(|s| s.to_ascii_lowercase())`.
Components are already `String`s, so `to_str` always succeeds. -/
def extLower (p : List String) : Option String :=
  (pathExtension p).map asciiLower

/-- `matches!(ext.as_deref(), Some("jpg" | "jpeg"))` (main.rs lines 146-147). -/
def is_jpeg (p : List String) : Bool :=
  match extLower p with
  | some "jpg" | some "jpeg" => true
  | _ => false

/-- The File Classifier: the eligibility decision of the walker closure
(main.rs lines 133-151): regular file and jpg/jpeg extension. -/
def classify (e : Entry) : Bool :=
  if !isFile e then false
  else is_jpeg e.path

/-- The accepted extension set of the reference transformation domain. -/
def acceptedExtensions : List String := ["jpg", "jpeg"]

/-- Rust `Path::strip_prefix` on component lists: `some` of the remaining
components when `pre` is a component-wise prefix of `p`, otherwise `none`
(the Rust method returns `Err(StripPrefixError)` then). -/
def stripPrefixComponents (pre p : List String) : Option (List String) :=
  if pre.isPrefixOf p then some (p.drop pre.length) else none

/-- The relative-path computation of `process_img` (main.rs lines 198-203):
strip the input root; on failure fall back to the file's base name
(`src.file_name()`), and error with the empty message (`anyhow!("")`) when
there is no base name. -/
def relPath (input_root src : List String) : Except String (List String) :=
  match stripPrefixComponents input_root src with
  | some rel => Except.ok rel
  | none =>
    match pathFileName src with
    | some name => Except.ok [name]
    | none => Except.error ""

/-- The Path Mapper: relative-path computation followed by
`output_root.join(rel_path)` (main.rs lines 198-205). -/
def pathMapper (input_root output_root src : List String) :
    Except String (List String) :=
  (relPath input_root src).map (fun rel => output_root ++ rel)

/-- Filesystem effects a per-file task performs: directories created and
invocations of the external transformation collaborator, in order.  Every
filesystem-changing call in `process_img` would append here; the source
contains none. -/
structure TaskEffects where
  dirs_created : List (List String)
  invocations : List (List String × List String)
deriving Repr, DecidableEq

/-- No filesystem effects. -/
def noEffects : TaskEffects := ⟨[], []⟩

/-- Concatenation of effect traces. -/
def appendEffects (a b : TaskEffects) : TaskEffects :=
  ⟨a.dirs_created ++ b.dirs_created, a.invocations ++ b.invocations⟩

/-- `process_img` (main.rs lines 192-216): computes the destination path
via the Path Mapper and returns.  The `dry_run` flag only selects a debug
log line; in both modes the function performs no directory creation and no
invocation of the transformation collaborator, returning `Ok(())` whenever
the relative-path computation succeeds. -/
def process_img (input_root output_root src : List String) (dry_run : Bool) :
    Except String Unit × TaskEffects :=
  match pathMapper input_root output_root src with
  | Except.error e => (Except.error e, noEffects)
  | Except.ok _dst => (Except.ok (), noEffects)

/-- The run's aggregate counters (the three `AtomicUsize`s). -/
structure Tally where
  processed : Nat
  skipped : Nat
  failed : Nat
deriving Repr, DecidableEq

/-- State accumulated over the walk: the tally plus the concatenated
filesystem effects of all dispatched tasks. -/
structure RunState where
  tally : Tally
  effects : TaskEffects
deriving Repr, DecidableEq

/-- Initial run state: all counters zero, no effects. -/
def initState : RunState := ⟨⟨0, 0, 0⟩, noEffects⟩

/-- The walker closure (main.rs lines 127-175) acting on one walk result:
non-files pass through uncounted; ineligible files are counted skipped;
eligible files are dispatched to `process_img` and counted processed or
failed by its result; traversal errors are counted failed. -/
def stepWalk (input_root output_root : List String) (dry_run : Bool)
    (s : RunState) : WalkItem → RunState
  | .ok e =>
    if !isFile e then s
    else if !is_jpeg e.path then
      { s with tally := { s.tally with skipped := s.tally.skipped + 1 } }
    else
      match process_img input_root output_root e.path dry_run with
      | (Except.ok _, eff) =>
        { tally := { s.tally with processed := s.tally.processed + 1 },
          effects := appendEffects s.effects eff }
      | (Except.error _, eff) =>
        { tally := { s.tally with failed := s.tally.failed + 1 },
          effects := appendEffects s.effects eff }
  | .err _ => { s with tally := { s.tally with failed := s.tally.failed + 1 } }

/-- The whole walk (main.rs lines 120-176): fold of the closure over the
walk results.  Counter increments commute, so this sequential fold computes
the aggregate tally of any parallel interleaving. -/
def runWalk (input_root output_root : List String) (dry_run : Bool)
    (items : List WalkItem) : RunState :=
  items.foldl (stepWalk input_root output_root dry_run) initState

/-- Filesystem facts the startup validation consults. -/
structure FsState where
  input_is_dir : Bool
  output_exists : Bool
  output_is_dir : Bool
  create_output_ok : Bool
deriving Repr, DecidableEq

/-- Result of startup validation: success (recording whether the output
directory was created) or a configuration error aborting the run. -/
inductive StartupOutcome
  | ok (created_output : Bool)
  | configError (msg : String)
deriving Repr, DecidableEq

/-- Startup validation of `main` (main.rs lines 82-95): bail when the input
path is not a directory; create the output directory when it does not exist
(propagating a creation failure); bail when the output path exists but is
not a directory. -/
def validateStartup (fs : FsState) : StartupOutcome :=
  if !fs.input_is_dir then
    StartupOutcome.configError "input path is not directory"
  else if !fs.output_exists then
    if fs.create_output_ok then StartupOutcome.ok true
    else StartupOutcome.configError "failed to create output dir"
  else if !fs.output_is_dir then
    StartupOutcome.configError "output path exists but is not directory"
  else StartupOutcome.ok false

/-- Whether a startup outcome is a configuration error. -/
def isConfigFailure : StartupOutcome → Bool
  | .configError _ => true
  | .ok _ => false

/-- `main` (main.rs lines 77-190): validate, run the walk, and return
`Ok(())` — the failed counter only triggers a warning log (lines 185-187),
never an error return. -/
def mainRun (fs : FsState) (input_root output_root : List String)
    (dry_run : Bool) (items : List WalkItem) : Except String RunState :=
  match validateStartup fs with
  | StartupOutcome.configError m => Except.error m
  | StartupOutcome.ok _ => Except.ok (runWalk input_root output_root dry_run items)

/-- Process exit status: `anyhow::Result` from `main` maps `Err` to a
non-zero status and `Ok(())` to zero. -/
def exitCode (fs : FsState) (input_root output_root : List String)
    (dry_run : Bool) (items : List WalkItem) : Nat :=
  match mainRun fs input_root output_root dry_run items with
  | Except.error _ => 1
  | Except.ok _ => 0

/-- Configuration of the parallel walker (main.rs lines 113-118):
`hidden(false)` disables hidden-entry filtering, `follow_links(false)`,
`standard_filters(true)`. -/
structure WalkerConfig where
  hidden_filter : Bool
  follow_links : Bool
  standard_filters : Bool
deriving Repr, DecidableEq

/-- The walker configuration built by `main`. -/
def imgstWalkerConfig : WalkerConfig :=
  { hidden_filter := false, follow_links := false, standard_filters := true }

/-- Whether a walk result is a regular-file entry. -/
def isRegularFileItem : WalkItem → Bool
  | .ok e => isFile e
  | .err _ => false

/-- Whether a walk result is a traversal error. -/
def isWalkErrorItem : WalkItem → Bool
  | .ok _ => false
  | .err _ => true

/-- Whether a walk result is an eligible file (regular file, jpg/jpeg). -/
def isEligibleItem : WalkItem → Bool
  | .ok e => classify e
  | .err _ => false

/-- Whether a walk result is an ineligible regular file. -/
def isIneligibleFileItem : WalkItem → Bool
  | .ok e => isFile e && !classify e
  | .err _ => false

/-- Number of walk results that are regular-file entries. -/
def countRegularFiles (items : List WalkItem) : Nat :=
  items.countP isRegularFileItem

/-- Number of walk results that are traversal errors. -/
def countWalkErrors (items : List WalkItem) : Nat :=
  items.countP isWalkErrorItem

/-- Number of walk results that are eligible files. -/
def countEligible (items : List WalkItem) : Nat :=
  items.countP isEligibleItem

/-- Number of walk results that are ineligible regular files. -/
def countIneligibleFiles (items : List WalkItem) : Nat :=
  items.countP isIneligibleFileItem

/-- Sum of the three counters of a tally. -/
def tallyTotal (t : Tally) : Nat := t.processed + t.skipped + t.failed

/-! ## Helper lemmas -/

lemma isFile_iff (e : Entry) : isFile e = true ↔ e.ftype = FileType.regular := by
  cases e with
  | mk p ft => cases ft <;> simp [isFile]

lemma is_jpeg_iff (p : List String) :
    is_jpeg p = true ↔ extLower p = some "jpg" ∨ extLower p = some "jpeg" := by
  unfold is_jpeg
  cases h : extLower p with
  | none => simp
  | some s =>
    by_cases h1 : s = "jpg"
    · subst h1; simp
    · by_cases h2 : s = "jpeg"
      · subst h2; simp
      · simp [h1, h2]

lemma is_jpeg_of_extLower_none (p : List String) (h : extLower p = none) :
    is_jpeg p = false := by
  unfold is_jpeg
  rw [h]

lemma extLower_append_single (dir : List String) (name : String) :
    extLower (dir ++ [name]) = (rustExtension name).map asciiLower := by
  by_cases h : name = ".."
  · subst h
    simp [extLower, pathExtension, pathFileName, List.getLast?_concat,
      rustExtension]
  · simp [extLower, pathExtension, pathFileName, List.getLast?_concat, h]

lemma appendEffects_noEffects (a : TaskEffects) : appendEffects a noEffects = a := by
  rcases a with ⟨d, v⟩
  simp [appendEffects, noEffects]

lemma process_img_ok_of_jpeg (input_root output_root p : List String)
    (dry_run : Bool) (hj : is_jpeg p = true) :
    process_img input_root output_root p dry_run = (Except.ok (), noEffects) := by
  have hlast : (pathFileName p).isSome = true := by
    cases hl : pathFileName p with
    | none =>
      have hext : extLower p = none := by
        simp [extLower, pathExtension, hl]
      rw [is_jpeg_of_extLower_none p hext] at hj
      exact absurd hj (by simp)
    | some name => rfl
  obtain ⟨name, hl⟩ := Option.isSome_iff_exists.mp hlast
  unfold process_img pathMapper relPath
  cases hs : stripPrefixComponents input_root p with
  | some rel => simp [Except.map]
  | none => simp [hl, Except.map]

lemma stepWalk_total (input_root output_root : List String) (dry_run : Bool)
    (s : RunState) (i : WalkItem) :
    tallyTotal (stepWalk input_root output_root dry_run s i).tally =
      tallyTotal s.tally + (if isRegularFileItem i then 1 else 0) +
        (if isWalkErrorItem i then 1 else 0) := by
  rcases i with e | m
  · cases hf : isFile e with
    | false => simp [stepWalk, hf, isRegularFileItem, isWalkErrorItem]
    | true =>
      cases hj : is_jpeg e.path with
      | false =>
        simp only [stepWalk, hf, hj, Bool.not_true, Bool.not_false,
          Bool.false_eq_true, if_false, if_true, isRegularFileItem,
          isWalkErrorItem, tallyTotal]
        omega
      | true =>
        rcases hp : process_img input_root output_root e.path dry_run
          with ⟨res, eff⟩
        rcases res with u | msg <;>
          · simp only [stepWalk, hf, hj, hp, Bool.not_true, Bool.not_false,
              Bool.false_eq_true, if_false, if_true, isRegularFileItem,
              isWalkErrorItem, tallyTotal]
            omega
  · simp only [stepWalk, isRegularFileItem, isWalkErrorItem, tallyTotal,
      if_false, if_true, Bool.false_eq_true]
    omega

lemma runWalk_total_aux (input_root output_root : List String)
    (dry_run : Bool) (items : List WalkItem) :
    ∀ s : RunState,
      tallyTotal ((items.foldl (stepWalk input_root output_root dry_run) s).tally) =
        tallyTotal s.tally + countRegularFiles items + countWalkErrors items := by
  induction items with
  | nil =>
    intro s
    simp [countRegularFiles, countWalkErrors]
  | cons i rest ih =>
    intro s
    rw [List.foldl_cons, ih (stepWalk input_root output_root dry_run s i),
      stepWalk_total]
    unfold countRegularFiles countWalkErrors
    rw [List.countP_cons, List.countP_cons]
    by_cases h1 : isRegularFileItem i = true <;>
      by_cases h2 : isWalkErrorItem i = true <;>
      simp [h1, h2] <;> omega

lemma runWalk_no_err_aux (input_root output_root : List String)
    (dry_run : Bool) (items : List WalkItem)
    (hne : ∀ i ∈ items, isWalkErrorItem i = false) :
    ∀ s : RunState,
      items.foldl (stepWalk input_root output_root dry_run) s =
        ⟨⟨s.tally.processed + countEligible items,
          s.tally.skipped + countIneligibleFiles items, s.tally.failed⟩,
          s.effects⟩ := by
  induction items with
  | nil =>
    intro s
    rcases s with ⟨⟨a, b, c⟩, eff⟩
    simp [countEligible, countIneligibleFiles]
  | cons i rest ih =>
    intro s
    have hrest : ∀ j ∈ rest, isWalkErrorItem j = false :=
      fun j hj => hne j (List.mem_cons_of_mem i hj)
    rcases i with e | m
    · rw [List.foldl_cons,
        ih hrest (stepWalk input_root output_root dry_run s (WalkItem.ok e))]
      unfold countEligible countIneligibleFiles
      rw [List.countP_cons, List.countP_cons]
      cases hf : isFile e with
      | false =>
        have hcl : classify e = false := by simp [classify, hf]
        simp [stepWalk, hf, isEligibleItem, isIneligibleFileItem, hcl]
      | true =>
        cases hj : is_jpeg e.path with
        | false =>
          have hcl : classify e = false := by simp [classify, hf, hj]
          simp [stepWalk, hf, hj, isEligibleItem, isIneligibleFileItem, hcl]
          omega
        | true =>
          have hcl : classify e = true := by simp [classify, hf, hj]
          simp [stepWalk, hf, hj, isEligibleItem, isIneligibleFileItem, hcl,
            process_img_ok_of_jpeg input_root output_root e.path dry_run hj,
            appendEffects_noEffects]
          omega
    · exact absurd (hne (WalkItem.err m) (List.mem_cons_self _ _))
        (by simp [isWalkErrorItem])

end Imgst

namespace Imgst

/-- C5: The File Classifier deems an entry eligible if and only if its
file-type tag is regular-file and its lowercase-normalized extension is in
the accepted set (jpg, jpeg); in particular it accepts "photo.jpg",
"IMG.JPEG", "x.JpG" and rejects "note.txt", "archive.tar.gz", and "photo"
(no extension). -/
theorem C5_classifier_eligibility :
    (∀ e : Entry, classify e = true ↔
      (e.ftype = FileType.regular ∧
        ∃ x ∈ acceptedExtensions, extLower e.path = some x)) ∧
    classify ⟨["photo.jpg"], FileType.regular⟩ = true ∧
    classify ⟨["IMG.JPEG"], FileType.regular⟩ = true ∧
    classify ⟨["x.JpG"], FileType.regular⟩ = true ∧
    classify ⟨["note.txt"], FileType.regular⟩ = false ∧
    classify ⟨["archive.tar.gz"], FileType.regular⟩ = false ∧
    classify ⟨["photo"], FileType.regular⟩ = false := by
  refine ⟨?_, rfl, rfl, rfl, rfl, rfl, rfl⟩
  intro e
  by_cases h : isFile e = true
  · have hr := (isFile_iff e).mp h
    simp [classify, h, hr, is_jpeg_iff, acceptedExtensions]
  · have hr : e.ftype ≠ FileType.regular := fun hc => h ((isFile_iff e).mpr hc)
    have hb : isFile e = false := by
      cases hv : isFile e
      · rfl
      · exact absurd hv h
    simp [classify, hb, hr]

/-- C10: a regular file whose entire name is ".jpg" or ".jpeg" (a
leading-dot name with no other dot) is classified as ineligible and
counted as skipped, because its extension is considered absent, even
though hidden entries are included in traversal (hidden filtering is
disabled in the walker configuration). -/
theorem C10_leading_dot_name_skipped :
    imgstWalkerConfig.hidden_filter = false ∧
    (∀ dir : List String,
      classify ⟨dir ++ [".jpg"], FileType.regular⟩ = false ∧
      classify ⟨dir ++ [".jpeg"], FileType.regular⟩ = false) ∧
    (∀ input_root output_root : List String, ∀ dry_run : Bool,
      ∀ s : RunState, ∀ dir : List String,
      stepWalk input_root output_root dry_run s
          (WalkItem.ok ⟨dir ++ [".jpg"], FileType.regular⟩) =
        { s with tally :=
          { s.tally with skipped := s.tally.skipped + 1 } } ∧
      stepWalk input_root output_root dry_run s
          (WalkItem.ok ⟨dir ++ [".jpeg"], FileType.regular⟩) =
        { s with tally :=
          { s.tally with skipped := s.tally.skipped + 1 } }) := by
  have hj1 : ∀ dir : List String, is_jpeg (dir ++ [".jpg"]) = false :=
    fun dir =>
      is_jpeg_of_extLower_none _ ((extLower_append_single dir ".jpg").trans rfl)
  have hj2 : ∀ dir : List String, is_jpeg (dir ++ [".jpeg"]) = false :=
    fun dir =>
      is_jpeg_of_extLower_none _ ((extLower_append_single dir ".jpeg").trans rfl)
  refine ⟨rfl, fun dir => ⟨?_, ?_⟩, fun iR oR dry s dir => ⟨?_, ?_⟩⟩
  · simp [classify, isFile, hj1 dir]
  · simp [classify, isFile, hj2 dir]
  · simp [stepWalk, isFile, hj1 dir]
  · simp [stepWalk, isFile, hj2 dir]

/-- C9: for every eligible file path, the per-file task function returns
the same outcome whether the dry-run flag is true or false: the dry-run
and live embeddings of process_img are equal as functions of (input root,
output root, source path), and hence whole runs coincide. -/
theorem C9_dry_run_live_equivalence (input_root output_root : List String) :
    (∀ src : List String,
      process_img input_root output_root src true =
        process_img input_root output_root src false) ∧
    (∀ items : List WalkItem,
      runWalk input_root output_root true items =
        runWalk input_root output_root false items) := by
  have hstep : stepWalk input_root output_root true =
      stepWalk input_root output_root false := rfl
  exact ⟨fun _ => rfl, fun items => by unfold runWalk; rw [hstep]⟩

/-- C1 (code bug): in live (non-dry-run) mode, on an eligible file under
the input root, process_img reports success yet creates no directory and
never invokes the transformation collaborator; at run level the file is
counted processed while the run performs zero filesystem effects, so no
input file ever appears under the Output Root. -/
theorem C1_live_mode_performs_no_transformation :
    classify ⟨["in", "a", "b.jpg"], FileType.regular⟩ = true ∧
    process_img ["in"] ["out"] ["in", "a", "b.jpg"] false =
      (Except.ok (), noEffects) ∧
    runWalk ["in"] ["out"] false
        [WalkItem.ok ⟨["in", "a", "b.jpg"], FileType.regular⟩] =
      ⟨⟨1, 0, 0⟩, noEffects⟩ := ⟨rfl, rfl, rfl⟩

/-- C2 counterexample: with valid startup configuration and a walk holding
one traversal error, the failed counter ends at 1 yet the exit status is
0, refuting that the exit status is non-zero whenever at least one file
failed. -/
theorem C2_counterexample :
    (runWalk ["in"] ["out"] false
      [WalkItem.err "permission denied"]).tally.failed = 1 ∧
    exitCode ⟨true, true, true, true⟩ ["in"] ["out"] false
      [WalkItem.err "permission denied"] = 0 := ⟨rfl, rfl⟩

/-- C2 (amended): the process exit status is 0 if and only if startup
validation succeeds, and it does not depend on the walk results at all —
per-file failures leave the exit status 0 (only a warning is logged). -/
theorem C2_exit_status (fs : FsState) (input_root output_root : List String)
    (dry_run : Bool) (items : List WalkItem) :
    (exitCode fs input_root output_root dry_run items = 0 ↔
      isConfigFailure (validateStartup fs) = false) ∧
    exitCode fs input_root output_root dry_run items =
      exitCode fs input_root output_root dry_run [] := by
  rcases h : validateStartup fs with b | m <;>
    simp [exitCode, mainRun, isConfigFailure, h]

/-- C4 counterexample: the path with no components (the filesystem root)
is not a descendant of input root ["a"], yet process_img does not fall
back to a base name — it returns an error, which the walker counts as a
Failed outcome; this refutes that the fallback never produces Failed. -/
theorem C4_counterexample :
    stripPrefixComponents ["a"] ([] : List String) = none ∧
    (process_img ["a"] ["out"] ([] : List String) false).1 =
      Except.error "" := ⟨rfl, rfl⟩

/-- C4 (amended): for every input path that is not a descendant of the
Input Root but has a base name, the Path Mapper falls back to joining only
the base name to the Output Root and the task still reports success, in
dry-run and live mode alike (degraded but non-fatal); only a path with no
base name yields an error. -/
theorem C4_basename_fallback (input_root output_root src : List String)
    (name : String) (hstrip : stripPrefixComponents input_root src = none)
    (hname : pathFileName src = some name) :
    pathMapper input_root output_root src =
      Except.ok (output_root ++ [name]) ∧
    (process_img input_root output_root src false).1 = Except.ok () ∧
    (process_img input_root output_root src true).1 = Except.ok () := by
  have hm : pathMapper input_root output_root src =
      Except.ok (output_root ++ [name]) := by
    simp [pathMapper, relPath, hstrip, hname, Except.map]
  exact ⟨hm, by simp [process_img, hm], by simp [process_img, hm]⟩

/-- C4 witness of the amended claim at a concrete non-descendant path. -/
theorem C4_witness :
    pathMapper ["a"] ["out"] ["b", "x.jpg"] = Except.ok ["out", "x.jpg"] :=
  (C4_basename_fallback ["a"] ["out"] ["b", "x.jpg"] "x.jpg" rfl rfl).1

/-- C6: the Path Mapper is pure and total over descendants of the Input
Root: for every descendant, it deterministically returns the Output Root
joined with the stripped relative components, that result lies under the
Output Root, and the relative structure (hence file name and extension) is
preserved exactly. -/
theorem C6_path_mapper_descendant (input_root output_root src : List String)
    (h : input_root <+: src) :
    pathMapper input_root output_root src =
      Except.ok (output_root ++ src.drop input_root.length) ∧
    input_root ++ src.drop input_root.length = src ∧
    output_root <+: output_root ++ src.drop input_root.length := by
  obtain ⟨t, ht⟩ := h
  subst ht
  have hd : (input_root ++ t).drop input_root.length = t := by
    simp [List.drop_left]
  have hp : input_root.isPrefixOf (input_root ++ t) = true :=
     List.isPrefixOf_iff_prefix.mpr ⟨t, rfl⟩
  refine ⟨?_, by rw [hd], by rw [hd]; exact ⟨t, rfl⟩⟩
  simp [pathMapper, relPath, stripPrefixComponents, hp, hd, Except.map]

/-- C6 witness at a concrete descendant path. -/
theorem C6_witness :
    pathMapper ["a"] ["o"] ["a", "b", "c.jpg"] =
      Except.ok ["o", "b", "c.jpg"] :=
  (C6_path_mapper_descendant ["a"] ["o"] ["a", "b", "c.jpg"]
    ⟨["b", "c.jpg"], rfl⟩).1

/-- C8: at startup, before any traversal, the Run Controller fails with a
configuration error when the input path is not an existing directory; it
creates the output directory when absent, and fails with a configuration
error when the output path exists but is not a directory; otherwise it
proceeds without creating anything. -/
theorem C8_startup_validation (fs : FsState) :
    (fs.input_is_dir = false →
      validateStartup fs =
        StartupOutcome.configError "input path is not directory") ∧
    (fs.input_is_dir = true → fs.output_exists = false →
      fs.create_output_ok = true →
      validateStartup fs = StartupOutcome.ok true) ∧
    (fs.input_is_dir = true → fs.output_exists = true →
      fs.output_is_dir = false →
      validateStartup fs =
        StartupOutcome.configError "output path exists but is not directory") ∧
    (fs.input_is_dir = true → fs.output_exists = true →
      fs.output_is_dir = true →
      validateStartup fs = StartupOutcome.ok false) := by
  refine ⟨fun h1 => ?_, fun h1 h2 h3 => ?_, fun h1 h2 h3 => ?_,
    fun h1 h2 h3 => ?_⟩ <;> simp [validateStartup, *]

/-- C8 witness: a missing output directory is created. -/
theorem C8_witness :
    validateStartup ⟨true, false, true, true⟩ = StartupOutcome.ok true :=
  (C8_startup_validation ⟨true, false, true, true⟩).2.1 rfl rfl rfl

/-- C3 counterexample: a walk consisting of one traversal error visits no
regular file, yet the counters sum to 1 (the error is counted failed), so
the sum does not equal the number of regular-file entries visited. -/
theorem C3_counterexample :
    countRegularFiles [WalkItem.err "io error"] = 0 ∧
    (runWalk ["in"] ["out"] false [WalkItem.err "io error"]).tally.processed +
        (runWalk ["in"] ["out"] false [WalkItem.err "io error"]).tally.skipped +
        (runWalk ["in"] ["out"] false [WalkItem.err "io error"]).tally.failed
      = 1 := ⟨rfl, rfl⟩

/-- C3 (amended): after the walk completes, processed + skipped + failed
equals the number of regular-file entries visited plus the number of
traversal errors reported by the walk; directories and symlinks are never
counted in any of the three counters. -/
theorem C3_tally_accounting (input_root output_root : List String)
    (dry_run : Bool) (items : List WalkItem) :
    ((runWalk input_root output_root dry_run items).tally.processed +
        (runWalk input_root output_root dry_run items).tally.skipped +
        (runWalk input_root output_root dry_run items).tally.failed =
      countRegularFiles items + countWalkErrors items) ∧
    (∀ s : RunState, ∀ p : List String,
      stepWalk input_root output_root dry_run s
        (WalkItem.ok ⟨p, FileType.directory⟩) = s ∧
      stepWalk input_root output_root dry_run s
        (WalkItem.ok ⟨p, FileType.symlink⟩) = s) := by
  constructor
  · have h := runWalk_total_aux input_root output_root dry_run items initState
    simpa [runWalk, tallyTotal, initState] using h
  · intro s p
    exact ⟨by simp [stepWalk, isFile], by simp [stepWalk, isFile]⟩

/-- C7: in dry-run mode, on a walk with no traversal errors holding N
eligible files and M ineligible regular files, the final tally is
processed = N, skipped = M, failed = 0, and no filesystem write (directory
creation or collaborator invocation) is performed. -/
theorem C7_dry_run_tally (input_root output_root : List String)
    (items : List WalkItem)
    (hne : ∀ i ∈ items, isWalkErrorItem i = false) :
    runWalk input_root output_root true items =
      ⟨⟨countEligible items, countIneligibleFiles items, 0⟩, noEffects⟩ := by
  have h := runWalk_no_err_aux input_root output_root true items hne initState
  simpa [runWalk, initState] using h

/-- C7 witness: a dry run over one eligible file, one ineligible file and
one directory tallies processed = 1, skipped = 1, failed = 0 with no
filesystem effects. -/
theorem C7_witness :
    runWalk ["in"] ["out"] true
      [WalkItem.ok ⟨["in", "a.jpg"], FileType.regular⟩,
       WalkItem.ok ⟨["in", "b.txt"], FileType.regular⟩,
       WalkItem.ok ⟨["in", "sub"], FileType.directory⟩] =
      ⟨⟨1, 1, 0⟩, noEffects⟩ := by
  have h := C7_dry_run_tally ["in"] ["out"]
    [WalkItem.ok ⟨["in", "a.jpg"], FileType.regular⟩,
     WalkItem.ok ⟨["in", "b.txt"], FileType.regular⟩,
     WalkItem.ok ⟨["in", "sub"], FileType.directory⟩] (by decide)
  exact h.trans (by rfl)

end Imgst
